import Mathlib

/-!
Verification of the Poshmark crawl traversal and extraction engine
(`src/PoshmarkUSSpider.py`) against its natural-language specification.

The Python source is shallowly embedded: pure computations become Lean
functions, the stateful parts (the browser driver, the run-state
accumulators, the shutdown step) become explicit state passing and event
lists, and fallible Python operations (attribute lookup, Selenium waits)
return `Except`.
-/

namespace Poshmark

/-- A detail-page response as seen by `PoshmarkParser`: the response URL plus
the result of each of the four CSS queries used by the getters
(`none` models a missing element, i.e. Python `None` from `.get()`). -/
structure Response where
  url : String
  titleText : Option String
  descriptionText : Option String
  priceText : Option String
  imageSrc : Option String
deriving Repr, DecidableEq

/-- Python errors the embedding distinguishes. -/
inductive PyError where
  | attributeError
  | timeoutException
deriving Repr, DecidableEq

/-- `get_product_title` (line 58): `response.css(".listing__title h1::text").get()`,
stripped when truthy, else `""`. Python's truthiness test means both `None`
and the empty string degrade to `""`. -/
def get_product_title (r : Response) : String :=
  match r.titleText with
  | some s => if s = "" then "" else s.trim
  | none => ""

/-- `get_product_description` (line 62): same null-safe pattern on
`.listing__description ::text`. -/
def get_product_description (r : Response) : String :=
  match r.descriptionText with
  | some s => if s = "" then "" else s.trim
  | none => ""

/-- `get_product_price` (line 66): same null-safe pattern on
`.listing__ipad-centered p::text`. -/
def get_product_price (r : Response) : String :=
  match r.priceText with
  | some s => if s = "" then "" else s.trim
  | none => ""

/-- `get_product_image` (line 70): `product_image or ""` (no strip). -/
def get_product_image (r : Response) : String :=
  match r.imageSrc with
  | some s => if s = "" then "" else s
  | none => ""

/-- The attribute table of `PoshmarkParser` restricted to string-returning
field getters: the class body defines exactly `get_product_title`,
`get_product_description`, `get_product_price` and `get_product_image`
(lines 58-72); no other getter exists on the class or on its `Spider`
base. A lookup of any other name is a Python `AttributeError`. -/
def parserAttr : String → Option (Response → String)
  | "get_product_title" => some get_product_title
  | "get_product_description" => some get_product_description
  | "get_product_price" => some get_product_price
  | "get_product_image" => some get_product_image
  | _ => none

/-- Attribute access `self.<name>`: returns the bound method or raises
`AttributeError`. -/
def getattr (name : String) : Except PyError (Response → String) :=
  match parserAttr name with
  | some f => Except.ok f
  | none => Except.error PyError.attributeError

/-- The central record built by `parse` (lines 36-54), one field per key of
the `parse_product` dict, in source order. `company_id` and `keyword` come
from `kwargs.get`, hence `Option`. -/
structure Listing where
  seller : String
  company_id : Option String
  keyword : Option String
  region : String
  country : String
  domain : String
  currency : String
  shipping_address : String
  created_at : String
  url : String
  title : String
  description : String
  price : String
  pic : String
deriving Repr, DecidableEq

/-- `PoshmarkParser.parse` (lines 33-56), as written in the source: the
`parse_product` dict literal evaluates its entries in order, and the
`"title"`, `"description"`, `"price"` and `"pic"` entries call
`self.get_title`, `self.get_description`, `self.get_price` and
`self.get_image` — names resolved through `parserAttr`. `today` stands for
the external `get_today_date()`. -/
def parse (today : String) (r : Response) (company_id keyword : Option String) :
    Except PyError Listing := do
  let titleFn ← getattr "get_title"
  let descriptionFn ← getattr "get_description"
  let priceFn ← getattr "get_price"
  let imageFn ← getattr "get_image"
  pure
    { seller := "poshmark"
      company_id := company_id
      keyword := keyword
      region := "NA"
      country := "United States"
      domain := "poshmark.com"
      currency := "USD"
      shipping_address := ""
      created_at := today
      url := r.url
      title := titleFn r
      description := descriptionFn r
      price := priceFn r
      pic := imageFn r }

/-- Modelled from the spec: the `exception_handler` decorator wrapping
`parse` (line 32) lives in the external `utils` module, absent from `src/`;
per the spec it catches and logs any extraction exception without
terminating the crawl. Applied to `parse`, it appends the parsed Listing to
the `products` accumulator on success and leaves the accumulator unchanged
on an exception. -/
def parseStep (today : String) (r : Response) (company_id keyword : Option String)
    (products : List Listing) : List Listing :=
  match parse today r company_id keyword with
  | Except.ok l => products ++ [l]
  | Except.error _ => products

/-- The getters the class actually defines behave per the spec: a missing
description node degrades to the empty string. -/
theorem get_product_description_missing (r : Response) (h : r.descriptionText = none) :
    get_product_description r = "" := by
  simp [get_product_description, h]

/-! ### Scroll convergence engine (`_scroll_page`, lines 191-213)

The browser is abstracted as an observation function `obs : Nat → Nat × Nat`:
`obs i = (new_height, len(products))` as read back after the `i`-th scroll
command. `scrollGo` is the `while scroll_attempts < 30` loop with the
remaining attempt budget as fuel; it returns the number of scroll commands
executed. -/

/-- Loop body of `_scroll_page`: state is `(last_height, products_count,
scrolls executed so far)`; the fuel is `max_scroll_attempts - scroll_attempts`.
The loop breaks when the new height EQUALS the previous height, the element
count EQUALS the previous count, or the count exceeds 500 (lines 206-208);
otherwise it updates the state and continues. -/
def scrollGo (obs : Nat → Nat × Nat) : Nat → Nat → Nat → Nat → Nat
  | _, _, i, 0 => i
  | lastHeight, productsCount, i, fuel + 1 =>
    let o := obs i
    if o.1 = lastHeight ∨ o.2 = productsCount ∨ o.2 > 500 then i + 1
    else scrollGo obs o.1 o.2 (i + 1) fuel

/-- `_scroll_page`: `last_height` starts at the pre-scroll document height,
`products_count` at 0, `scroll_attempts` at 0 with `max_scroll_attempts = 30`.
Returns the number of scroll commands executed. -/
def scroll_page (initHeight : Nat) (obs : Nat → Nat × Nat) : Nat :=
  scrollGo obs initHeight 0 0 30

/-- The `(last_height, products_count)` state held just before scroll `i`,
assuming the loop has not broken earlier: initially `(initHeight, 0)`, and
after a non-breaking iteration the observation just made. -/
def scrollState (initHeight : Nat) (obs : Nat → Nat × Nat) : Nat → Nat × Nat
  | 0 => (initHeight, 0)
  | i + 1 => obs i

/-- The break condition of the loop as evaluated at scroll `i` (reached
without an earlier break): new height equals the held height, or the element
count equals the held count, or the count exceeds 500. -/
def stopCond (initHeight : Nat) (obs : Nat → Nat × Nat) (i : Nat) : Bool :=
  decide ((obs i).1 = (scrollState initHeight obs i).1 ∨
    (obs i).2 = (scrollState initHeight obs i).2 ∨ (obs i).2 > 500)

theorem scrollGo_le (obs : Nat → Nat × Nat) :
    ∀ (fuel h c i : Nat), scrollGo obs h c i fuel ≤ i + fuel := by
  intro fuel
  induction fuel with
  | zero => intro h c i; simp [scrollGo]
  | succ n ih =>
    intro h c i
    simp only [scrollGo]
    split
    · omega
    · have := ih (obs i).1 (obs i).2 (i + 1)
      omega

theorem scrollGo_stops (obs : Nat → Nat × Nat) (initHeight : Nat) :
    ∀ (fuel i k : Nat), i ≤ k → k < i + fuel →
      stopCond initHeight obs k = true →
      (∀ j, i ≤ j → j < k → stopCond initHeight obs j = false) →
      scrollGo obs (scrollState initHeight obs i).1 (scrollState initHeight obs i).2 i fuel
        = k + 1 := by
  intro fuel
  induction fuel with
  | zero => intro i k h1 h2; omega
  | succ n ih =>
    intro i k h1 h2 hk hmin
    simp only [scrollGo]
    by_cases hstop :
        (obs i).1 = (scrollState initHeight obs i).1 ∨
          (obs i).2 = (scrollState initHeight obs i).2 ∨ (obs i).2 > 500
    · have hi : stopCond initHeight obs i = true := by
        simp [stopCond, hstop]
      have hik : i = k := by
        by_contra hne
        have hlt : i < k := by omega
        have hf := hmin i (le_refl i) hlt
        simp [hi] at hf
      subst hik
      rw [if_pos hstop]
    · have hi : i ≠ k := by
        intro he
        apply hstop
        have hk2 := hk
        rw [← he] at hk2
        simpa [stopCond] using hk2
      have hik : i + 1 ≤ k := by omega
      have hrec := ih (i + 1) k hik (by omega) hk
        (fun j hj1 hj2 => hmin j (by omega) hj2)
      have hstate : scrollState initHeight obs (i + 1) = obs i := rfl
      rw [if_neg hstop]
      rw [hstate] at hrec
      exact hrec

theorem scrollGo_no_stop (obs : Nat → Nat × Nat) (initHeight : Nat) :
    ∀ (fuel i : Nat), (∀ j, i ≤ j → j < i + fuel → stopCond initHeight obs j = false) →
      scrollGo obs (scrollState initHeight obs i).1 (scrollState initHeight obs i).2 i fuel
        = i + fuel := by
  intro fuel
  induction fuel with
  | zero => intro i _; simp [scrollGo]
  | succ n ih =>
    intro i hall
    simp only [scrollGo]
    have hi : stopCond initHeight obs i = false := hall i (le_refl i) (by omega)
    have hstop : ¬((obs i).1 = (scrollState initHeight obs i).1 ∨
        (obs i).2 = (scrollState initHeight obs i).2 ∨ (obs i).2 > 500) := by
      intro hc
      have ht : stopCond initHeight obs i = true := by
        simp [stopCond, hc]
      simp [hi] at ht
    rw [if_neg hstop]
    have hrec := ih (i + 1) (fun j hj1 hj2 => hall j (by omega) (by omega))
    have hstate : scrollState initHeight obs (i + 1) = obs i := rfl
    rw [hstate] at hrec
    rw [hrec]
    omega

/-! ### Seeding (`start_requests`, lines 116-146)

A seed object is a dict from `scraper_url_list`; `obj.get("regions")` and
`obj.get("countries")` yield strings, with the empty string standing for a
missing/empty value (both are falsy in Python, and the code's
`if obj.get(...) else []` guard treats them identically). -/

/-- One element of `search_url_variations`. -/
structure SeedObj where
  url : String
  keyword : Option String
  company_id : Option String
  regions : String
  countries : String
deriving Repr, DecidableEq

/-- `regions = obj.get("regions", "").split(", ") if obj.get("regions") else []`
(line 123). -/
def declaredRegions (o : SeedObj) : List String :=
  if o.regions = "" then [] else o.regions.splitOn ", "

/-- `countries = obj.get("countries", "").split(", ") if obj.get("countries") else []`
(line 124). -/
def declaredCountries (o : SeedObj) : List String :=
  if o.countries = "" then [] else o.countries.splitOn ", "

/-- `should_crawl` (lines 126-130): Python `and` binds tighter than `or`, so
this is `(not regions and not countries) or ("NA" in regions) or
("United States" in countries)`. -/
def should_crawl (o : SeedObj) : Bool :=
  ((declaredRegions o).isEmpty && (declaredCountries o).isEmpty) ||
    (declaredRegions o).contains "NA" || (declaredCountries o).contains "United States"

/-- A request yielded by the spider, identified by its callback and payload. -/
inductive Request where
  | search (url : String) (company_id keyword : Option String)
  | detailMissingSeller (url : String)
  | detailTakenDown (url : String) (advert_id product : String)
deriving Repr, DecidableEq

/-- The request a seed produces when accepted (lines 135-143). -/
def seedRequest (o : SeedObj) : Request :=
  Request.search o.url o.company_id o.keyword

/-- `start_requests` (lines 116-146): the seed loop skips (`continue`, line
133) every seed failing `should_crawl` and yields one search request for the
rest, then chains `_handle_missing_seller_urls` (lines 215-224) and
`_handle_taken_down_adverts` (lines 226-236) over the externally supplied
URL sets. -/
def start_requests (seeds : List SeedObj) (missingSellerUrls : List String)
    (takenDownAdverts : List (String × String × String)) : List Request :=
  seedLoop seeds ++ missingSellerUrls.map Request.detailMissingSeller ++
    takenDownAdverts.map (fun a => Request.detailTakenDown a.2.2 a.1 a.2.1)
where
  seedLoop : List SeedObj → List Request
    | [] => []
    | o :: rest =>
      if should_crawl o then seedRequest o :: seedLoop rest else seedLoop rest

/-! ### One render cycle (`crawl_poshmark_products`, lines 148-189) -/

/-- A loaded search page: whether the product-card element
`.grid-page .item__details` becomes present within the 10-unit
`WebDriverWait`, and the `href` of each product card found in the page
source after scrolling (`none` when the card has no anchor). -/
structure SearchPage where
  appearsWithin10 : Bool
  anchors : List (Option String)
deriving Repr, DecidableEq

/-- `WebDriverWait(self.driver, 10).until(EC.presence_of_element_located(...))`
(lines 155-156): Selenium's `until` polls the condition and RAISES
`TimeoutException` when it never turns truthy within the wait; on success it
returns the located element, which as a `WebElement` object is always
truthy. The payload `Bool` is the truthiness of the returned value. -/
def untilPresence (appears : Bool) : Except PyError Bool :=
  if appears then Except.ok true else Except.error PyError.timeoutException

/-- `base_url` (line 80). -/
def base_url : String := "https://poshmark.com"

/-- Lines 172-177: skip a card with no `href`; prepend `base_url` when the
URL is relative. -/
def resolveAnchor (a : Option String) : Option String :=
  match a with
  | none => none
  | some u => some (if u.startsWith "http" then u else base_url ++ u)

/-- What one execution of `crawl_poshmark_products` did: the detail URLs it
yielded requests for, whether `self.driver.quit()` ran, whether either
`self.logger.error` line ran, and the exception escaping the callback,
if any. -/
structure CycleResult where
  requests : List String
  quitCalled : Bool
  loggedError : Bool
  raised : Option PyError
deriving Repr, DecidableEq

/-- `crawl_poshmark_products` (lines 148-189). The `if not
webdriver_wait.until(...)` guard (line 156) can only see a truthy element —
on timeout `until` raises instead — so its body (log, quit, return; lines
157-159) is unreachable, and a timeout escapes the callback before any
`driver.quit()`. On the reachable paths: an empty product list after
scrolling logs and quits (lines 165-168); otherwise one request per
resolvable anchor is yielded and the driver quits (lines 171-189). -/
def crawl_poshmark_products (page : SearchPage) : CycleResult :=
  match untilPresence page.appearsWithin10 with
  | Except.error e =>
    { requests := [], quitCalled := false, loggedError := false, raised := some e }
  | Except.ok found =>
    if !found then
      { requests := [], quitCalled := true, loggedError := true, raised := none }
    else if page.anchors.isEmpty then
      { requests := [], quitCalled := true, loggedError := true, raised := none }
    else
      { requests := page.anchors.filterMap resolveAnchor, quitCalled := true,
        loggedError := false, raised := none }

/-! ### Browser session lifetime across cycles (`__init__`, lines 99-114)

`self.driver = self.get_driver()` runs once, in `__init__`; every render
cycle reads the same `self.driver` attribute and `driver.quit()` ends that
shared session. Session identity is modelled by a numeric id: the one
`get_driver()` call in `__init__` creates session 0, and no other call site
creates a session. -/

/-- The crawler's driver-related state: the session id `self.driver` refers
to and whether that session is still live. -/
structure CrawlerState where
  driverSid : Nat
  driverAlive : Bool
deriving Repr, DecidableEq

/-- State after `__init__`: the single `get_driver()` call made session 0,
live. -/
def initState : CrawlerState := { driverSid := 0, driverAlive := true }

/-- What one render cycle observed about the session it used. -/
structure CycleTrace where
  sidUsed : Nat
  aliveAtStart : Bool
deriving Repr, DecidableEq

/-- One render cycle against the crawler state: the cycle uses `self.driver`
as it stands (no new session is opened), and the session dies exactly when
the cycle's execution reaches a `driver.quit()` — which per
`crawl_poshmark_products` happens on every path except the wait timeout. -/
def runCycle (s : CrawlerState) (page : SearchPage) : CycleTrace × CrawlerState :=
  (⟨s.driverSid, s.driverAlive⟩,
    if (crawl_poshmark_products page).quitCalled then
      { s with driverAlive := false }
    else s)

/-- The traces of a sequence of render cycles run on one crawler instance. -/
def runCycles (s : CrawlerState) : List SearchPage → List CycleTrace
  | [] => []
  | p :: ps =>
    let r := runCycle s p
    r.1 :: runCycles r.2 ps

/-- The session traces the source actually produces over `n` cycles whose
waits all succeed: every cycle uses session 0, and only the first finds it
alive. -/
def expectedTraces : Nat → List CycleTrace
  | 0 => []
  | n + 1 => ⟨0, true⟩ :: List.replicate n ⟨0, false⟩

/-! ### Shutdown (`closed`, lines 238-266) and deduplication -/

/-- Modelled from the spec: `unique_list_of_product` is imported from the
external `utils` module, which is absent from `src/`; per the spec it
collapses the accumulated Listing list to one record per distinct listing
identity, keyed on the `url` field (the stated identity key), keeping the
first record seen for each URL. `seen` accumulates the URLs already kept. -/
def dedupByUrl (seen : List String) : List Listing → List Listing
  | [] => []
  | l :: ls =>
    if l.url ∈ seen then dedupByUrl seen ls
    else l :: dedupByUrl (l.url :: seen) ls

/-- Modelled from the spec: the entry point `unique_list_of_product(self)`
(line 246) deduplicates `self.products` by URL. -/
def unique_list_of_product (products : List Listing) : List Listing :=
  dedupByUrl [] products

/-- The CSV header written by `csv.DictWriter(..., fieldnames=
unique_products[0].keys())`: the keys of the `parse_product` dict, in
insertion order (lines 36-54). -/
def listingFieldNames : List String :=
  ["seller", "company_id", "keyword", "region", "country", "domain", "currency",
    "shipping_address", "created_at", "url", "title", "description", "price", "pic"]

/-- One CSV row for a Listing, in field order (`csv` writes Python `None`
as the empty string). -/
def toRow (l : Listing) : List String :=
  [l.seller, l.company_id.getD "", l.keyword.getD "", l.region, l.country, l.domain,
    l.currency, l.shipping_address, l.created_at, l.url, l.title, l.description,
    l.price, l.pic]

/-- The externally visible actions of the `closed` shutdown hook, in
program order. -/
inductive ClosedEvent where
  | makeDirs (dir : String)
  | writeCsv (filename : String) (header : List String) (rows : List (List String))
  | exportCall (products : List Listing)
  | updateLastSeen (adverts : List (String × String × String))
  | updateSellers (urls : List String)
deriving Repr, DecidableEq

/-- `closed(self, reason)` (lines 238-266): always ensure `outputs/` exists;
dedup the accumulator; write the timestamped CSV only when the deduped list
is non-empty (`if unique_products:`); always call `write_to_excel` with the
deduped list; then call `update_last_seen` / `update_sellers` only when the
respective accumulator is non-empty. `ts` stands for
`datetime.now().strftime(...)`. -/
def closed (ts : String) (products : List Listing)
    (taken_down_list : List (String × String × String))
    (missing_seller_list : List String) : List ClosedEvent :=
  [ClosedEvent.makeDirs "outputs"] ++
    (if (unique_list_of_product products).isEmpty then []
     else
       [ClosedEvent.writeCsv ("outputs/poshmark_products_" ++ ts ++ ".csv")
          listingFieldNames ((unique_list_of_product products).map toRow)]) ++
    [ClosedEvent.exportCall (unique_list_of_product products)] ++
    (if taken_down_list.isEmpty then []
     else [ClosedEvent.updateLastSeen taken_down_list]) ++
    (if missing_seller_list.isEmpty then []
     else [ClosedEvent.updateSellers missing_seller_list])

/-- Whether a shutdown event is a call to one of the two update
collaborators. -/
def isUpdateEvent : ClosedEvent → Bool
  | ClosedEvent.updateLastSeen _ => true
  | ClosedEvent.updateSellers _ => true
  | _ => false

/-! ### Run state (`products`, `taken_down_list`, `missing_seller_list`,
lines 84-86)

The three class-level accumulators start empty. The only statement in the
source that mutates any of them is `PoshmarkCrawler.products.append(...)`
inside `parse` (line 56); no statement appends to `taken_down_list` or
`missing_seller_list`. A run is a sequence of callback executions. -/

structure RunState where
  products : List Listing
  taken_down_list : List (String × String × String)
  missing_seller_list : List String
deriving Repr, DecidableEq

/-- The accumulators as initialized in the class body (lines 84-86). -/
def initRun : RunState := { products := [], taken_down_list := [], missing_seller_list := [] }

/-- The callbacks that execute during a run; each carries the data its
execution depends on. -/
inductive Step where
  | parseDetail (today : String) (r : Response) (company_id keyword : Option String)
  | renderCycle (page : SearchPage)
deriving Repr

/-- Effect of one callback on the run state: `parse` (wrapped in
`exception_handler`) appends to `products` on success only;
`crawl_poshmark_products` never touches the accumulators. -/
def stepRun (s : RunState) : Step → RunState
  | Step.parseDetail today r c k =>
    { s with products := parseStep today r c k s.products }
  | Step.renderCycle _ => s

/-- A whole run: the accumulators after a sequence of callbacks. -/
def runSteps (steps : List Step) : RunState :=
  steps.foldl stepRun initRun

/-! ### Supporting lemmas -/

/-- None of the four attribute names `parse` uses is defined on the class:
each lookup raises `AttributeError`, starting with `get_title`. -/
theorem parse_raises (today : String) (r : Response) (company_id keyword : Option String) :
    parse today r company_id keyword = Except.error PyError.attributeError := rfl

/-- `driver.quit()` runs in a render cycle exactly when the initial wait
found the product-card element: the timeout path raises before any quit. -/
theorem quitCalled_eq_appears (page : SearchPage) :
    (crawl_poshmark_products page).quitCalled = page.appearsWithin10 := by
  rcases page with ⟨ap, an⟩
  cases ap
  · rfl
  · by_cases h : an.isEmpty <;>
      simp [crawl_poshmark_products, untilPresence, h]

/-- The seed loop of `start_requests` is the applicability filter followed by
request construction. -/
theorem seedLoop_eq_filter (seeds : List SeedObj) :
    start_requests.seedLoop seeds = (seeds.filter should_crawl).map seedRequest := by
  induction seeds with
  | nil => rfl
  | cons o rest ih =>
    by_cases h : should_crawl o <;>
      simp [start_requests.seedLoop, List.filter_cons, h, ih]

/-- Once the shared session is dead, every later cycle sees it dead. -/
theorem runCycles_dead (pages : List SearchPage) (sid : Nat) :
    runCycles ⟨sid, false⟩ pages = List.replicate pages.length ⟨sid, false⟩ := by
  induction pages with
  | nil => rfl
  | cons p ps ih =>
    simp only [runCycles, runCycle, List.length_cons, List.replicate_succ]
    split <;> exact congrArg _ ih

/-- Deduplication leaves a list alone when no element's URL is already seen
and the URLs are pairwise distinct. -/
theorem dedupByUrl_pairwise (ps : List Listing) :
    ∀ seen : List String, (∀ x ∈ ps, x.url ∉ seen) →
      ps.Pairwise (fun a b => a.url ≠ b.url) → dedupByUrl seen ps = ps := by
  induction ps with
  | nil => intro seen _ _; rfl
  | cons l ls ih =>
    intro seen hseen hpw
    have hl : l.url ∉ seen := hseen l (List.mem_cons_self l ls)
    rw [List.pairwise_cons] at hpw
    simp only [dedupByUrl, if_neg hl]
    congr 1
    apply ih (l.url :: seen)
    · intro x hx
      simp only [List.mem_cons]
      rintro (he | hs)
      · exact hpw.1 x hx he.symm
      · exact hseen x (List.mem_cons_of_mem l hx) hs
    · exact hpw.2

/-- How many records with a given URL deduplication keeps: none when the URL
was already seen, one when some input record carries it, none otherwise. -/
theorem dedupByUrl_countP (ps : List Listing) :
    ∀ (seen : List String) (u : String),
      (dedupByUrl seen ps).countP (fun x => x.url == u) =
        if u ∈ seen then 0 else if ps.any (fun x => x.url == u) then 1 else 0 := by
  induction ps with
  | nil =>
    intro seen u
    by_cases h : u ∈ seen <;> simp [dedupByUrl, h]
  | cons l ls ih =>
    intro seen u
    by_cases hl : l.url ∈ seen
    · rw [show dedupByUrl seen (l :: ls) = dedupByUrl seen ls from if_pos hl]
      rw [ih seen u]
      by_cases hu : u ∈ seen
      · simp [hu]
      · have hne : (l.url == u) = false := by
          simp only [beq_eq_false_iff_ne, ne_eq]
          intro he
          exact hu (he ▸ hl)
        simp [hu, List.any_cons, hne]
    · rw [show dedupByUrl seen (l :: ls) = l :: dedupByUrl (l.url :: seen) ls from if_neg hl]
      rw [List.countP_cons, ih (l.url :: seen) u]
      by_cases hu : u ∈ seen
      · have hne : (l.url == u) = false := by
          simp only [beq_eq_false_iff_ne, ne_eq]
          intro he
          exact hl (he ▸ hu)
        simp [hu, List.mem_cons, hne, beq_eq_false_iff_ne] at *
      · by_cases heq : l.url = u
        · simp [heq, hu, List.any_cons]
        · have hmem : u ∉ l.url :: seen := by
            simp only [List.mem_cons]
            rintro (he | hs)
            · exact heq he.symm
            · exact hu hs
          have hne : (l.url == u) = false := by
            simp [beq_eq_false_iff_ne, heq]
          simp [hmem, hu, List.any_cons, hne]

/-- `stepRun` never touches the two auxiliary accumulators. -/
theorem stepRun_aux_unchanged (s : RunState) (st : Step) :
    (stepRun s st).taken_down_list = s.taken_down_list ∧
      (stepRun s st).missing_seller_list = s.missing_seller_list := by
  cases st <;> exact ⟨rfl, rfl⟩

/-- Over a whole run the auxiliary accumulators keep their initial value. -/
theorem foldl_aux_unchanged (steps : List Step) :
    ∀ s : RunState, ((steps.foldl stepRun s).taken_down_list = s.taken_down_list ∧
      (steps.foldl stepRun s).missing_seller_list = s.missing_seller_list) := by
  induction steps with
  | nil => intro s; exact ⟨rfl, rfl⟩
  | cons st rest ih =>
    intro s
    have h1 := stepRun_aux_unchanged s st
    have h2 := ih (stepRun s st)
    exact ⟨h2.1.trans h1.1, h2.2.trans h1.2⟩

/-! ### Concrete inputs used by counterexamples and witnesses -/

/-- Observations whose first post-scroll height (5) is BELOW the initial
height (10) and strictly increasing afterwards, with the element count
strictly increasing throughout. -/
def c2CexObs : Nat → Nat × Nat :=
  fun n => if n = 0 then (5, 1) else (100 + n, n + 1)

/-- Observations stable in count from the second scroll on: the loop's
equality test fires at the third scroll. -/
def c2WitnessObs : Nat → Nat × Nat :=
  fun n => (11 + n, min (n + 1) 2)

/-- A search page whose wait succeeds and which shows one product card. -/
def happyPage : SearchPage :=
  { appearsWithin10 := true, anchors := [some "/listing/abc"] }

/-- A fully tagged Listing with URL `.../listing/a`. -/
def sampleListing : Listing :=
  { seller := "poshmark", company_id := none, keyword := none, region := "NA",
    country := "United States", domain := "poshmark.com", currency := "USD",
    shipping_address := "", created_at := "2026-10-12",
    url := "https://poshmark.com/listing/a", title := "", description := "",
    price := "", pic := "" }

/-- Same record with URL `.../listing/b`. -/
def sampleListing2 : Listing :=
  { sampleListing with url := "https://poshmark.com/listing/b" }

/-! ### The claims -/

/-- C1: the claim expects that a detail page whose description element is
absent (title, price, image present) parses to a Listing with
`description = ""` and the other three fields populated, with no error. The
source contradicts it: `parse` reads `self.get_title`, `self.get_description`,
`self.get_price` and `self.get_image`, none of which exists on the class
(it defines `get_product_title` etc., lines 58-72), so every parse — of this
page shape as of any other — raises `AttributeError` at the first field and
produces no Listing at all. -/
theorem claim_C1_parse_raises_attribute_error (today u t p i : String)
    (c k : Option String) :
    parse today
      { url := u, titleText := some t, descriptionText := none,
        priceText := some p, imageSrc := some i } c k =
      Except.error PyError.attributeError :=
  parse_raises today _ c k

/-- C2 counterexample: with initial height 10 and `c2CexObs`, the height
observed after the first scroll (5) did not increase, so the claim as
stated says the loop stops after 1 iteration; the source loop compares for
EQUALITY (`new_height == last_height`), does not stop, and runs all
30 scrolls. -/
theorem claim_C2_counterexample :
    (c2CexObs 0).1 < 10 ∧ scroll_page 10 c2CexObs = 30 := by
  constructor
  · decide
  · decide

/-- C2 (amended): for every observation sequence the scroll loop performs at
most 30 scrolls, and it stops right after the first scroll whose observed
height EQUALS the held height, or whose element count EQUALS the held count,
or whose count exceeds 500; when no such scroll occurs in the first 30, it
performs exactly 30. -/
theorem claim_C2_scroll_convergence (initHeight : Nat) (obs : Nat → Nat × Nat) :
    scroll_page initHeight obs ≤ 30 ∧
    (∀ k, k < 30 → stopCond initHeight obs k = true →
      (∀ j, j < k → stopCond initHeight obs j = false) →
      scroll_page initHeight obs = k + 1) ∧
    ((∀ j, j < 30 → stopCond initHeight obs j = false) →
      scroll_page initHeight obs = 30) := by
  refine ⟨?_, ?_, ?_⟩
  · exact scrollGo_le obs 30 initHeight 0 0
  · intro k hk hstop hmin
    exact scrollGo_stops obs initHeight 30 0 k (Nat.zero_le k) (by omega) hstop
      (fun j _ hj => hmin j hj)
  · intro hall
    exact scrollGo_no_stop obs initHeight 30 0 (fun j _ hj => hall j (by omega))

/-- C2 witness: on `c2WitnessObs` the count stalls at the third scroll, so
the loop performs exactly 3 scrolls. -/
theorem claim_C2_witness : scroll_page 10 c2WitnessObs = 3 :=
  (claim_C2_scroll_convergence 10 c2WitnessObs).2.1 2 (by decide) (by decide)
    (by decide)

/-- C3: a seed is accepted — a search request is emitted for it — exactly
when it declares no regions and no countries, or "NA" is among its declared
regions, or "United States" is among its declared countries; every other
seed is skipped, and the emitted requests are the accepted seeds' search
requests followed by the two auxiliary passes. -/
theorem claim_C3_seed_applicability :
    (∀ o : SeedObj, should_crawl o = true ↔
      ((declaredRegions o = [] ∧ declaredCountries o = []) ∨
        "NA" ∈ declaredRegions o ∨ "United States" ∈ declaredCountries o)) ∧
    (∀ (seeds : List SeedObj) (ms : List String)
        (td : List (String × String × String)),
      start_requests seeds ms td =
        (seeds.filter should_crawl).map seedRequest ++
          ms.map Request.detailMissingSeller ++
          td.map (fun a => Request.detailTakenDown a.2.2 a.1 a.2.1)) := by
  constructor
  · intro o
    simp [should_crawl, List.isEmpty_iff, or_assoc]
  · intro seeds ms td
    rw [start_requests, seedLoop_eq_filter]

/-- C4: the claim expects a failed 10-unit wait to be treated as an empty
result, logged, with the session released and no exception escaping. The
source contradicts it: `WebDriverWait.until` RAISES `TimeoutException` when
the product-card element never appears (it never returns a falsy value, so
the guarded log/quit/return branch is dead code); the cycle yields no
requests but the exception escapes the callback, nothing is logged by the
cycle, and `driver.quit()` does not run. -/
theorem claim_C4_wait_timeout_escapes (anchors : List (Option String)) :
    crawl_poshmark_products { appearsWithin10 := false, anchors := anchors } =
      { requests := [], quitCalled := false, loggedError := false,
        raised := some PyError.timeoutException } :=
  rfl

/-- C5: the claim expects the browser session to be terminated on every exit
path of a render cycle. The source contradicts it on exactly one path:
`driver.quit()` runs if and only if the initial wait found the product-card
element — on a wait timeout the exception is raised before any quit, so
that exit path leaks the browser session. -/
theorem claim_C5_quit_only_after_wait (page : SearchPage) :
    (crawl_poshmark_products page).quitCalled = page.appearsWithin10 :=
  quitCalled_eq_appears page

/-- C6 counterexample: two render cycles whose waits succeed use the SAME
session (id 0, created once in `__init__`), and the second cycle begins
with that session already quit — the claim says distinct cycles have
distinct sessions, each live at cycle start. -/
theorem claim_C6_counterexample :
    (runCycles initState [happyPage, happyPage]).map CycleTrace.sidUsed = [0, 0] ∧
    (runCycles initState [happyPage, happyPage]).map CycleTrace.aliveAtStart =
      [true, false] := by
  constructor
  · decide
  · decide

/-- C6 (amended): a single browser session is created once, at crawler
initialization, and shared by all render cycles; each cycle whose wait
succeeds tears that shared session down at its end, so every cycle uses
session 0 and only the first cycle begins with a live session. -/
theorem claim_C6_single_shared_session (pages : List SearchPage)
    (h : ∀ p ∈ pages, p.appearsWithin10 = true) :
    runCycles initState pages = expectedTraces pages.length := by
  cases pages with
  | nil => rfl
  | cons p ps =>
    have hp : p.appearsWithin10 = true := h p (List.mem_cons_self p ps)
    have hq : (crawl_poshmark_products p).quitCalled = true := by
      rw [quitCalled_eq_appears, hp]
    have hstep : runCycle initState p = (⟨0, true⟩, ⟨0, false⟩) := by
      simp [runCycle, hq, initState]
    show (runCycle initState p).1 :: runCycles (runCycle initState p).2 ps =
      expectedTraces (ps.length + 1)
    rw [hstep]
    show CycleTrace.mk 0 true :: runCycles ⟨0, false⟩ ps = _
    rw [runCycles_dead]
    rfl

/-- C6 witness: two all-happy cycles produce the shared-session traces. -/
theorem claim_C6_witness :
    runCycles initState [happyPage, happyPage] = expectedTraces 2 :=
  claim_C6_single_shared_session [happyPage, happyPage] (by decide)

/-- C7: the claim expects every appended Listing to carry the five constant
provenance fields, with failed scraped fields degrading to the empty
string. The source contradicts it: because `parse` raises `AttributeError`
on every response (undefined `get_title` etc.), the `exception_handler`
wrapper swallows the exception and NOTHING is ever appended to the
`products` accumulator — the degradation-to-empty-string path is
unreachable. -/
theorem claim_C7_nothing_appended (today : String) (r : Response)
    (c k : Option String) (products : List Listing) :
    parseStep today r c k products = products := by
  simp [parseStep, parse_raises]

/-- C8: at shutdown, an empty deduplicated list writes no local file yet
still invokes the export collaborator with the empty list; a non-empty one
first writes the timestamped CSV (header = the Listing field names, one row
per unique Listing) and then invokes the export collaborator. -/
theorem claim_C8_shutdown_export (ts : String) (products : List Listing) :
    (unique_list_of_product products = [] →
      closed ts products [] [] =
        [ClosedEvent.makeDirs "outputs", ClosedEvent.exportCall []]) ∧
    (unique_list_of_product products ≠ [] →
      closed ts products [] [] =
        [ClosedEvent.makeDirs "outputs",
          ClosedEvent.writeCsv ("outputs/poshmark_products_" ++ ts ++ ".csv")
            listingFieldNames ((unique_list_of_product products).map toRow),
          ClosedEvent.exportCall (unique_list_of_product products)]) := by
  constructor
  · intro h
    simp [closed, h]
  · intro h
    have hne : (unique_list_of_product products).isEmpty = false := by
      simpa [List.isEmpty_iff] using h
    simp [closed, hne]

/-- C8 witness: shutdown on an empty and on a one-Listing accumulator. -/
theorem claim_C8_witness :
    closed "t" [] [] [] = [ClosedEvent.makeDirs "outputs", ClosedEvent.exportCall []] ∧
    closed "t" [sampleListing] [] [] =
      [ClosedEvent.makeDirs "outputs",
        ClosedEvent.writeCsv ("outputs/poshmark_products_" ++ "t" ++ ".csv")
          listingFieldNames ((unique_list_of_product [sampleListing]).map toRow),
        ClosedEvent.exportCall (unique_list_of_product [sampleListing])] :=
  ⟨(claim_C8_shutdown_export "t" []).1 rfl,
    (claim_C8_shutdown_export "t" [sampleListing]).2 (by decide)⟩

/-- C9: the URL-keyed deduplication is idempotent on identities: an
already-unique list (pairwise distinct URLs) comes back unchanged, and a
list holding N exact duplicates of one record (plus any tail) yields exactly
one record with that URL. -/
theorem claim_C9_dedup_idempotent :
    (∀ ps : List Listing, ps.Pairwise (fun a b => a.url ≠ b.url) →
      unique_list_of_product ps = ps) ∧
    (∀ (l : Listing) (n : Nat) (rest : List Listing), 0 < n →
      (unique_list_of_product (List.replicate n l ++ rest)).countP
        (fun x => x.url == l.url) = 1) := by
  constructor
  · intro ps hpw
    exact dedupByUrl_pairwise ps [] (fun x _ => List.not_mem_nil x.url) hpw
  · intro l n rest hn
    rw [unique_list_of_product, dedupByUrl_countP]
    have hany : (List.replicate n l ++ rest).any (fun x => x.url == l.url) = true := by
      rw [List.any_eq_true]
      exact ⟨l, List.mem_append_left rest (List.mem_replicate.mpr ⟨by omega, rfl⟩),
        by simp⟩
    simp [hany]

/-- C9 witness: a two-element unique list is unchanged; three duplicates of
one record plus one other record keep exactly one record with the
duplicated URL. -/
theorem claim_C9_witness :
    unique_list_of_product [sampleListing, sampleListing2] =
      [sampleListing, sampleListing2] ∧
    (unique_list_of_product (List.replicate 3 sampleListing ++ [sampleListing2])).countP
      (fun x => x.url == sampleListing.url) = 1 :=
  ⟨claim_C9_dedup_idempotent.1 [sampleListing, sampleListing2] (by decide),
    claim_C9_dedup_idempotent.2 sampleListing 3 [sampleListing2] (by decide)⟩

/-- C10: no operation of the program appends to `taken_down_list` or
`missing_seller_list`: after any sequence of callbacks both accumulators
are still empty, and consequently the shutdown step emits no
`update_last_seen` and no `update_sellers` call. -/
theorem claim_C10_aux_accumulators_empty (steps : List Step) (ts : String) :
    (runSteps steps).taken_down_list = [] ∧
    (runSteps steps).missing_seller_list = [] ∧
    (closed ts (runSteps steps).products (runSteps steps).taken_down_list
        (runSteps steps).missing_seller_list).all
      (fun e => !isUpdateEvent e) = true := by
  have h := foldl_aux_unchanged steps initRun
  refine ⟨h.1, h.2, ?_⟩
  rw [show (runSteps steps).taken_down_list = [] from h.1,
    show (runSteps steps).missing_seller_list = [] from h.2]
  by_cases hemp : (unique_list_of_product (runSteps steps).products).isEmpty <;>
    simp [closed, hemp, isUpdateEvent]

end Poshmark
